import Mathlib

/-!
Verification of the drought-index computation engine (`dic`): a shallow
embedding of the China Z-Index (CZI), the Modified China Z-Index (MCZI) and
the Composite Index (CI) calculators, together with theorems checking the
natural-language specification against the code.

Modelling conventions:
* A pandas cell holding a float or NaN is embedded as `Option ℚ`
  (`none` = NaN/missing); float arithmetic is idealised as exact rational /
  real arithmetic.
* A pandas `Series` is a `List` (positional order = chronological index
  order).  Row order of `groupby` results is not modelled; statements about
  grouped tables use list membership.
* `numpy.float64 ** (1/3)` applied to a negative base returns NaN (numpy
  does not take real cube roots of negative numbers); this is embedded by
  `npPow13` returning `none` for a negative radicand.
* The scipy calls `stats.gamma.fit`, `stats.gamma.cdf`, `stats.norm.ppf`
  inside `calculate_spi` are external library code; their composite
  (fit on the sample, take the CDF of the current value, map through the
  inverse normal CDF) is abstracted as a function parameter `score`,
  since no claim depends on its numeric value.
-/

namespace DIC

/-- One cell of the `precipitation` column: `none` models NaN/missing. -/
abbrev Val := Option ℚ

/-- `Series.dropna()`: keep the non-missing values, in order. -/
def dropna (s : List Val) : List ℚ := s.filterMap id

/-- `np.mean(precip)`. -/
def mean (V : List ℚ) : ℚ := V.sum / V.length

/-- `np.median(precip)`: sort; middle element for odd length, average of the
two middle elements for even length. -/
def median (V : List ℚ) : ℚ :=
  let s := V.insertionSort (fun a b => a ≤ b)
  if V.length % 2 = 1 then s.getD (V.length / 2) 0
  else (s.getD (V.length / 2 - 1) 0 + s.getD (V.length / 2) 0) / 2

/-- The radicand of `np.std(precip, ddof=1)`: `Σ (v - mean)² / (n - 1)`. -/
def sampleVar (V : List ℚ) : ℚ :=
  (V.map (fun v => (v - mean V) ^ 2)).sum / ((V.length : ℚ) - 1)

/-- `np.std(precip, ddof=1)` as a real number. -/
noncomputable def std (V : List ℚ) : ℝ := Real.sqrt (sampleVar V)

/-- `np.sum((precip - loc) ** 3) / n`, the third-moment numerator of the
skewness computed about the location estimator `loc` (mean for CZI,
median for MCZI). -/
def m3q (loc : ℚ) (V : List ℚ) : ℚ :=
  (V.map (fun v => (v - loc) ^ 3)).sum / V.length

/-- `skewness = (np.sum((precip - loc) ** 3) / n) / std ** 3`. -/
noncomputable def skewAbout (loc : ℚ) (V : List ℚ) : ℝ :=
  ((m3q loc V : ℚ) : ℝ) / std V ^ 3

/-- `numpy.float64` power with exponent `1/3`: the real cube root for a
non-negative base; NaN (embedded as `none`) for a negative base, since
numpy's float power does not take real cube roots of negatives. -/
noncomputable def npPow13 (r : ℝ) : Option ℝ :=
  if 0 ≤ r then some (r ^ ((1 : ℝ) / 3)) else none

/-- The Wilson-Hilferty radicand `(skewness / 2) * z + 1` of the transform
at input `x`, with `z = (x - loc) / std`. -/
noncomputable def radicand (loc : ℚ) (V : List ℚ) (x : ℚ) : ℝ :=
  skewAbout loc V / 2 * (((x : ℝ) - (loc : ℝ)) / std V) + 1

/-- Loop body shared by `calculate_czi` and `calculate_mczi`
(`czi.py` lines 47-61, `mczi.py` lines 60-76): standardise `x`, then apply
the Wilson-Hilferty cube-root transform unless the skewness is zero. -/
noncomputable def chinaZ (loc : ℚ) (stdv skew : ℝ) (x : ℚ) : Option ℝ :=
  let z : ℝ := (((x : ℝ) - (loc : ℝ)) / stdv)
  if skew = 0 then some z
  else
    (npPow13 (skew / 2 * z + 1)).map
      (fun c => 6 / skew * c - (6 / skew + skew / 6))

/-- `ChinaZIndex.calculate_czi` (czi.py lines 22-63). -/
noncomputable def calculate_czi (s : List Val) : List (Option ℝ) :=
  let V := dropna s
  if V.length < 2 then s.map (fun _ => none)
  else if std V = 0 then s.map (fun _ => some 0)
  else s.map (fun x? => x?.bind (chinaZ (mean V) (std V) (skewAbout (mean V) V)))

/-- `ModifiedChinaZIndex.calculate_mczi` (mczi.py lines 29-78): identical to
`calculate_czi` except that the location estimator is the median, both for
the z-score and for the skewness. -/
noncomputable def calculate_mczi (s : List Val) : List (Option ℝ) :=
  let V := dropna s
  if V.length < 2 then s.map (fun _ => none)
  else if std V = 0 then s.map (fun _ => some 0)
  else s.map (fun x? => x?.bind (chinaZ (median V) (std V) (skewAbout (median V) V)))

/-- `BaseDroughtIndex.classify_drought` (base.py lines 23-54); the argument
is `none` when `pd.isna(index_value)`. -/
noncomputable def classify_drought (x? : Option ℝ) : String :=
  match x? with
  | none => "No Data"
  | some x =>
    if x ≥ 2.0 then "Extremely Wet"
    else if x ≥ 1.50 then "Severe Wet"
    else if x ≥ 1.00 then "Moderate Wet"
    else if x ≥ 0.50 then "Mild Wet"
    else if x ≥ -0.49 then "Normal"
    else if x ≥ -0.99 then "Mild Drought"
    else if x ≥ -1.49 then "Moderate Drought"
    else if x ≥ -1.99 then "Severe Drought"
    else "Extreme Drought"

/-- One step of the loop in `CompositeIndex.classify_ci_drought`
(ci.py lines 149-163). -/
noncomputable def classifyCIValue (ci? : Option ℝ) : String :=
  match ci? with
  | none => "No Data"
  | some ci =>
    if ci > -0.6 then "Normal"
    else if ci ≥ -1.2 then "Mild Drought"
    else if ci ≥ -1.8 then "Moderate Drought"
    else if ci ≥ -2.4 then "Severe Drought"
    else "Extreme Drought"

/-- `CompositeIndex.classify_ci_drought` (ci.py lines 139-163): classify a
whole array of CI values. -/
noncomputable def classify_ci_drought (ci_values : List (Option ℝ)) : List String :=
  ci_values.map classifyCIValue

/-- Severity order of the nine CZI/MCZI classes, driest first; used to state
that the classifier is monotone. -/
def severityRank (c : String) : ℕ :=
  if c = "Extreme Drought" then 0
  else if c = "Severe Drought" then 1
  else if c = "Moderate Drought" then 2
  else if c = "Mild Drought" then 3
  else if c = "Normal" then 4
  else if c = "Mild Wet" then 5
  else if c = "Moderate Wet" then 6
  else if c = "Severe Wet" then 7
  else if c = "Extremely Wet" then 8
  else 9

/-- Trailing rolling sum `precip.rolling(window=timescale,
min_periods=timescale).sum()` (ci.py line 54) over the NaN-free series `V`:
position `i` is defined iff `i + 1 ≥ k`, with value the sum of the `k`
entries ending at `i`. -/
def rollingSum (k : ℕ) (V : List ℚ) : List (Option ℚ) :=
  (List.range V.length).map (fun i =>
    if i + 1 < k then none else some (((V.drop (i + 1 - k)).take k).sum))

/-- `CompositeIndex.calculate_spi` (ci.py lines 36-75).  The composite of
the scipy calls `stats.gamma.fit(sample_data, floc=0)`,
`stats.gamma.cdf(x, *params)` and `stats.norm.ppf(prob)` is abstracted as
the function parameter `score sample_data x`; no claim settled here depends
on its numeric value.  The final
`pd.Series(spi_values, index=precipitation_series.index)` raises a
ValueError when `len(spi_values) != len(precipitation_series)`; that is
embedded as `Except.error`. -/
def calculate_spi (score : List ℚ → ℚ → ℝ) (timescale : ℕ) (s : List Val) :
    Except String (List (Option ℝ)) :=
  let precip := dropna s
  if precip.length < timescale then .ok (s.map (fun _ => none))
  else
    let rolling_sum := rollingSum timescale precip
    let spi_values := (List.range rolling_sum.length).map (fun i =>
      if i < timescale - 1 then none
      else
        let sample_data := ((rolling_sum.take (i + 1)).drop (i - 359)).filterMap id
        if 1 < sample_data.length then
          (rolling_sum.getD i none).map (fun x => score sample_data x)
        else none)
    if spi_values.length = s.length then .ok spi_values
    else .error "Length of values does not match length of index"

/-- One row of the input table: `year`, `month`, `precipitation` (missing
allowed). -/
structure MonthRec where
  year : ℤ
  month : ℕ
  precip : Val
deriving DecidableEq

/-- The `seasons` dictionary (czi.py lines 79-82, mczi.py lines 96-100):
months 3-5 Spring, 6-8 Summer, 9-11 Fall, and 1, 2, 12 Winter. -/
def seasonName (m : ℕ) : String :=
  if m = 3 ∨ m = 4 ∨ m = 5 then "Spring"
  else if m = 6 ∨ m = 7 ∨ m = 8 then "Summer"
  else if m = 9 ∨ m = 10 ∨ m = 11 then "Fall"
  else "Winter"

/-- The `year_season` grouping key (czi.py lines 84-88): December is moved
to the NEXT year's Winter bucket.  The source encodes the key as the string
`"{year}_{season}"`; the pair (key-year, season) is an equivalent key. -/
def seasonKey (r : MonthRec) : ℤ × String :=
  if r.month = 12 then (r.year + 1, "Winter")
  else (r.year, seasonName r.month)

/-- `groupby('year_season')['precipitation'].sum()` for one bucket
(czi.py line 90): pandas sums with skipna, so missing values are ignored
and an all-missing bucket sums to 0. -/
def bucketSum (rs : List MonthRec) (key : ℤ × String) : ℚ :=
  ((rs.filter (fun r => seasonKey r = key)).filterMap (fun r => r.precip)).sum

/-- One output row of `calculate_seasonal_czi` / `calculate_seasonal_mczi`
(year, season, precipitation). -/
structure SeasonRow where
  year : ℤ
  season : String
  precip : ℚ
deriving DecidableEq

/-- The row built for one season bucket (czi.py lines 93-103): the reported
year is the key-year, except for Winter where it is the key-year minus 1
(`result_year = int(year) if season != 'Winter' else int(year) - 1`). -/
def seasonalRow (rs : List MonthRec) (key : ℤ × String) : SeasonRow :=
  { year := if key.2 = "Winter" then key.1 - 1 else key.1
    season := key.2
    precip := bucketSum rs key }

/-- The (year, season, precipitation) part of `calculate_seasonal_czi` /
`calculate_seasonal_mczi` (czi.py lines 77-105): one row per distinct
season bucket.  Pandas emits the rows sorted by the string key; row order
is not modelled, statements use membership. -/
def calculate_seasonal (rs : List MonthRec) : List SeasonRow :=
  ((rs.map seasonKey).dedup).map (seasonalRow rs)

/-- `CompositeIndex.calculate_potential_evapotranspiration` (ci.py lines
77-89): with temperature data, the simplified expression
`0.0023 * 0.408 * temperature * 50`; without temperature data,
`precipitation * 0.7` (missing precipitation gives missing PET). -/
def calculate_potential_evapotranspiration
    (temperature_data : Option (List ℚ)) (precip : List Val) : List Val :=
  match temperature_data with
  | some ts => ts.map (fun t => some (0.0023 * 0.408 * t * 50))
  | none => precip.map (fun p? => p?.map (fun p => p * 0.7))

/-- `CompositeIndex.calculate_moisture_index` (ci.py lines 91-108):
`np.where(precipitation > 0, (precipitation - pet) / precipitation, 0)`
elementwise; a NaN precipitation fails the `> 0` test and yields 0, while a
NaN PET at a position with positive precipitation propagates as NaN. -/
def calculate_moisture_index (temperature_data : Option (List ℚ))
    (precip : List Val) : List Val :=
  List.zipWith
    (fun p? pet? =>
      match p? with
      | some p =>
        if 0 < p then pet?.map (fun pet => (p - pet) / p) else some 0
      | none => some 0)
    precip (calculate_potential_evapotranspiration temperature_data precip)

/-- `groupby(self.data.index.year)['precipitation'].sum()` restricted to
one year (czi.py line 109, mczi.py line 129): pandas sums with skipna, so
missing months are ignored and an all-missing year sums to 0. -/
def annualPrecip (rs : List MonthRec) (y : ℤ) : ℚ :=
  ((rs.filter (fun r => r.year = y)).filterMap (fun r => r.precip)).sum

/-- The (year, precipitation) rows of `calculate_annual_czi` /
`calculate_annual_mczi` (czi.py lines 107-116, mczi.py lines 127-136): one
row per distinct year of the input.  Pandas emits the rows sorted by year;
row order is not modelled, statements use membership. -/
def calculate_annual (rs : List MonthRec) : List (ℤ × ℚ) :=
  ((rs.map (fun r => r.year)).dedup).map (fun y => (y, annualPrecip rs y))

/-- C1 counterexample: the claim says `classify_ci(-0.6) == "Normal"`, but
`classify_ci_drought` tests `ci > -0.6` strictly, so an input of exactly
-0.6 falls into the `ci >= -1.2` branch and is classified "Mild Drought". -/
theorem c1_counterexample :
    classify_ci_drought [some (-0.6)] = ["Mild Drought"] ∧
      ("Mild Drought" : String) ≠ "Normal" := by
  constructor
  · simp [classify_ci_drought, classifyCIValue]
    norm_num
  · decide

/-- C1 (amended): for the CI classifier, an input of exactly -0.6 is
classified "Mild Drought" (the "Normal" bin requires `ci > -0.6` strictly),
an input of -0.60001 is classified "Mild Drought", and a missing input is
classified "No Data". -/
theorem c1_ci_classifier_boundary :
    classify_ci_drought [some (-0.6), some (-0.60001), none] =
      ["Mild Drought", "Mild Drought", "No Data"] := by
  simp [classify_ci_drought, classifyCIValue]
  norm_num

set_option maxHeartbeats 2000000 in
/-- C7: `classify_drought` is a total monotone step function (severity rank
never decreases as the index value grows), each of the nine bins is entered
exactly at its inclusive lower bound 2.0, 1.5, 1.0, 0.5, -0.49, -0.99,
-1.49, -1.99, values below -1.99 are "Extreme Drought", and a missing input
gives "No Data"; in particular classify(2.0) = "Extremely Wet",
classify(-0.49) = "Normal", classify(-0.5) = "Mild Drought". -/
theorem c7_czi_classifier_step_function :
    (∀ x y : ℝ, x ≤ y →
      severityRank (classify_drought (some x)) ≤
        severityRank (classify_drought (some y))) ∧
    classify_drought (some 2.0) = "Extremely Wet" ∧
    classify_drought (some 1.5) = "Severe Wet" ∧
    classify_drought (some 1.0) = "Moderate Wet" ∧
    classify_drought (some 0.5) = "Mild Wet" ∧
    classify_drought (some (-0.49)) = "Normal" ∧
    classify_drought (some (-0.99)) = "Mild Drought" ∧
    classify_drought (some (-1.49)) = "Moderate Drought" ∧
    classify_drought (some (-1.99)) = "Severe Drought" ∧
    classify_drought (some (-0.5)) = "Mild Drought" ∧
    classify_drought (some (-2.0)) = "Extreme Drought" ∧
    classify_drought none = "No Data" := by
  refine ⟨?_, ?_, ?_, ?_, ?_, ?_, ?_, ?_, ?_, ?_, ?_, ?_⟩
  · intro x y hxy
    simp only [classify_drought]
    split_ifs <;> first | decide | linarith
  all_goals simp [classify_drought] <;> norm_num

/-- C7 witness: the monotonicity conjunct applied at the concrete pair
(-2.5, 3). -/
theorem c7_witness :
    ((-2.5 : ℝ) ≤ 3) ∧
      severityRank (classify_drought (some (-2.5))) ≤
        severityRank (classify_drought (some 3)) :=
  ⟨by norm_num, c7_czi_classifier_step_function.1 (-2.5) 3 (by norm_num)⟩

/-- C2 counterexample: for the input series [5, NaN, 5] two non-missing
values remain and their sample standard deviation is zero, yet
`calculate_czi` and `calculate_mczi` output 0 at position 1, whose input is
missing — the claim instead requires a missing output there. -/
theorem c2_counterexample :
    2 ≤ (dropna [some 5, none, some 5]).length ∧
    std (dropna [some 5, none, some 5]) = 0 ∧
    (calculate_czi [some 5, none, some 5]).getD 1 none = some 0 ∧
    (calculate_mczi [some 5, none, some 5]).getD 1 none = some 0 := by
  have hdrop : dropna [some 5, none, some 5] = [5, 5] := by decide
  have hstd : std (dropna [some 5, none, some 5]) = 0 := by
    rw [hdrop]
    unfold std
    rw [show sampleVar [5, 5] = 0 from by norm_num [sampleVar, mean]]
    simp
  refine ⟨by rw [hdrop]; norm_num, hstd, ?_, ?_⟩ <;>
    [simp only [calculate_czi]; simp only [calculate_mczi]] <;>
    · rw [if_neg (by rw [hdrop]; norm_num), if_pos hstd]
      rfl

/-- C2 (amended): for every input sequence to the CZI/MCZI transform, if
fewer than two non-missing values remain after dropping missing entries,
every output position is missing; otherwise, if the sample standard
deviation of the non-missing values is zero, every output position is
exactly 0 — including the positions whose input is missing. -/
theorem c2_degenerate_branches (s : List Val) :
    ((dropna s).length < 2 →
      calculate_czi s = s.map (fun _ => none) ∧
      calculate_mczi s = s.map (fun _ => none)) ∧
    (2 ≤ (dropna s).length → std (dropna s) = 0 →
      calculate_czi s = s.map (fun _ => some 0) ∧
      calculate_mczi s = s.map (fun _ => some 0)) := by
  constructor
  · intro h
    constructor <;> [simp only [calculate_czi]; simp only [calculate_mczi]] <;>
      rw [if_pos h]
  · intro h2 h0
    constructor <;> [simp only [calculate_czi]; simp only [calculate_mczi]] <;>
      rw [if_neg (by omega), if_pos h0]

/-- C2 witness: the amended theorem applied to the concrete series [1]
(fewer than two values) and [5, NaN, 5] (zero sample standard deviation). -/
theorem c2_witness :
    ((dropna [some 1]).length < 2 ∧ calculate_czi [some 1] = [none]) ∧
    (2 ≤ (dropna [some 5, none, some 5]).length ∧
      std (dropna [some 5, none, some 5]) = 0 ∧
      calculate_mczi [some 5, none, some 5] = [some 0, some 0, some 0]) := by
  have h1 : (dropna [some 1]).length < 2 := by decide
  have h2 : 2 ≤ (dropna [some 5, none, some 5]).length := by decide
  have h0 : std (dropna [some 5, none, some 5]) = 0 := by
    rw [show dropna [some 5, none, some 5] = [5, 5] from by decide]
    unfold std
    rw [show sampleVar [5, 5] = 0 from by norm_num [sampleVar, mean]]
    simp
  exact ⟨⟨h1, ((c2_degenerate_branches [some 1]).1 h1).1⟩,
         ⟨h2, h0, ((c2_degenerate_branches [some 5, none, some 5]).2 h2 h0).2⟩⟩

/-- The series exhibiting a negative Wilson-Hilferty radicand: ten defined
months [0, 1, 1, 1, 1, 1, 1, 1, 1, 4]. -/
def c3data : List Val :=
  [some 0, some 1, some 1, some 1, some 1, some 1, some 1, some 1, some 1,
   some 4]

/-- The non-missing values of `c3data`. -/
def c3V : List ℚ := [0, 1, 1, 1, 1, 1, 1, 1, 1, 4]

/-- When the skewness is nonzero and the Wilson-Hilferty radicand is
negative, `numpy`'s float power returns NaN, so the transform outputs NaN
(`none`). -/
lemma chinaZ_none_of_radicand_neg (loc : ℚ) (V : List ℚ) (x : ℚ)
    (hskew : skewAbout loc V ≠ 0) (hrad : radicand loc V x < 0) :
    chinaZ loc (std V) (skewAbout loc V) x = none := by
  simp only [chinaZ]
  rw [if_neg hskew]
  have harg : skewAbout loc V / 2 * (((x : ℝ) - (loc : ℝ)) / std V) + 1
      = radicand loc V x := rfl
  rw [harg]
  simp only [npPow13]
  rw [if_neg (not_le.mpr hrad)]
  rfl

/-- The radicand `(skew/2)*z + 1` collapses to a rational expression:
`m3 * (x - loc) / (2 * var²) + 1`, because `std⁴ = var²`. -/
lemma radicand_rational (loc x : ℚ) (V : List ℚ) (hv : 0 < sampleVar V) :
    radicand loc V x
      = ((m3q loc V : ℚ) : ℝ) * (((x : ℚ) : ℝ) - ((loc : ℚ) : ℝ))
          / (2 * ((sampleVar V : ℚ) : ℝ) ^ 2) + 1 := by
  have hv' : (0 : ℝ) < ((sampleVar V : ℚ) : ℝ) := by exact_mod_cast hv
  have hs2 : std V ^ 2 = ((sampleVar V : ℚ) : ℝ) := Real.sq_sqrt hv'.le
  have hspos : 0 < std V := Real.sqrt_pos.mpr hv'
  have hs0 : std V ≠ 0 := ne_of_gt hspos
  have h4 : std V ^ 4 = ((sampleVar V : ℚ) : ℝ) ^ 2 := by
    calc std V ^ 4 = (std V ^ 2) ^ 2 := by ring
    _ = _ := by rw [hs2]
  unfold radicand skewAbout
  rw [show ((m3q loc V : ℚ) : ℝ) / std V ^ 3 / 2
        * ((((x : ℚ) : ℝ) - ((loc : ℚ) : ℝ)) / std V)
      = ((m3q loc V : ℚ) : ℝ) * (((x : ℚ) : ℝ) - ((loc : ℚ) : ℝ))
          / (2 * std V ^ 4) from by
    rw [div_div, div_mul_div_comm]
    congr 1
    ring]
  rw [h4]

/-- C3: on the fully defined series [0,1,1,1,1,1,1,1,1,4] the
Wilson-Hilferty radicand at position 0 is negative for both the CZI
(mean-based) and the MCZI (median-based) transform, and both calculators
output NaN (`none`) there: numpy's float power returns NaN on a negative
base instead of the real sign-preserving cube root required by the spec. -/
theorem c3_negative_radicand_gives_nan :
    radicand (mean (dropna c3data)) (dropna c3data) 0 < 0 ∧
    radicand (median (dropna c3data)) (dropna c3data) 0 < 0 ∧
    c3data.getD 0 none = some 0 ∧
    (calculate_czi c3data).getD 0 (some 0) = none ∧
    (calculate_mczi c3data).getD 0 (some 0) = none := by
  have hdrop : dropna c3data = c3V := by decide
  have hmean : mean c3V = 6 / 5 := by norm_num [mean, c3V]
  have hmed : median c3V = 1 := by
    norm_num [median, c3V, List.insertionSort, List.orderedInsert]
  have hvar : sampleVar c3V = 16 / 15 := by
    simp only [sampleVar]
    rw [hmean]
    norm_num [c3V]
  have hm3mean : m3q (6 / 5) c3V = 252 / 125 := by
    simp only [m3q]
    norm_num [c3V]
  have hm3med : m3q 1 c3V = 13 / 5 := by
    simp only [m3q]
    norm_num [c3V]
  have hvpos : 0 < sampleVar c3V := by rw [hvar]; norm_num
  have hstdpos : 0 < std c3V := by
    unfold std
    exact Real.sqrt_pos.mpr (by exact_mod_cast hvpos)
  have hradmean : radicand (mean c3V) c3V 0 < 0 := by
    rw [hmean, radicand_rational (6 / 5) 0 c3V hvpos, hm3mean, hvar]
    push_cast
    norm_num
  have hradmed : radicand (median c3V) c3V 0 < 0 := by
    rw [hmed, radicand_rational 1 0 c3V hvpos, hm3med, hvar]
    push_cast
    norm_num
  have hskewmean : skewAbout (mean c3V) c3V ≠ 0 := by
    rw [hmean]
    unfold skewAbout
    rw [hm3mean]
    have hnum : (0 : ℝ) < ((252 / 125 : ℚ) : ℝ) := by norm_num
    exact ne_of_gt (div_pos hnum (pow_pos hstdpos 3))
  have hskewmed : skewAbout (median c3V) c3V ≠ 0 := by
    rw [hmed]
    unfold skewAbout
    rw [hm3med]
    have hnum : (0 : ℝ) < ((13 / 5 : ℚ) : ℝ) := by norm_num
    exact ne_of_gt (div_pos hnum (pow_pos hstdpos 3))
  refine ⟨by rw [hdrop]; exact hradmean, by rw [hdrop]; exact hradmed,
    by decide, ?_, ?_⟩
  · simp only [calculate_czi]
    rw [hdrop, if_neg (by norm_num [c3V]), if_neg hstdpos.ne']
    simp only [c3data, List.map_cons, List.getD_cons_zero, Option.some_bind]
    exact chinaZ_none_of_radicand_neg (mean c3V) c3V 0 hskewmean hradmean
  · simp only [calculate_mczi]
    rw [hdrop, if_neg (by norm_num [c3V]), if_neg hstdpos.ne']
    simp only [c3data, List.map_cons, List.getD_cons_zero, Option.some_bind]
    exact chinaZ_none_of_radicand_neg (median c3V) c3V 0 hskewmed hradmed

/-- C4: on the series [1, NaN, 2, 3] with timescale 1 the claim requires a
result with position 1 missing and the other positions governed by the
sample-size rule, but `calculate_spi` computes its rolling sums over the
NaN-dropped series (3 values) and then builds a pandas Series of the 3
resulting scores over the original 4-entry index, which raises a
ValueError — whatever values the gamma/normal scoring step returns. -/
theorem c4_spi_length_mismatch (score : List ℚ → ℚ → ℝ) :
    calculate_spi score 1 [some 1, none, some 2, some 3]
      = .error "Length of values does not match length of index" := rfl

/-- The concrete seasonal-aggregation input for C6: December 2000 and
January, February, March 2001. -/
def winterExample : List MonthRec :=
  [⟨2000, 12, some 10⟩, ⟨2001, 1, some 20⟩, ⟨2001, 2, some 30⟩,
   ⟨2001, 3, some 5⟩]

/-- C6: a December record of year Y carries the same season key as the
January and February records of year Y+1 (one Winter bucket), and that
bucket's result row reports season "Winter" with the start year Y;
concretely, December 2000 (10) plus January 2001 (20) and February 2001
(30) form the single row (year 2000, "Winter", 60). -/
theorem c6_winter_bucket :
    (∀ (Y : ℤ) (p q u : Val),
      seasonKey ⟨Y, 12, p⟩ = (Y + 1, "Winter") ∧
      seasonKey ⟨Y + 1, 1, q⟩ = (Y + 1, "Winter") ∧
      seasonKey ⟨Y + 1, 2, u⟩ = (Y + 1, "Winter") ∧
      (∀ rs : List MonthRec,
        (seasonalRow rs (Y + 1, "Winter")).year = Y ∧
        (seasonalRow rs (Y + 1, "Winter")).season = "Winter")) ∧
    (⟨2000, "Winter", 60⟩ : SeasonRow) ∈ calculate_seasonal winterExample := by
  constructor
  · intro Y p q u
    refine ⟨by simp [seasonKey], by simp [seasonKey, seasonName],
      by simp [seasonKey, seasonName], fun rs => ⟨by simp [seasonalRow], rfl⟩⟩
  · have hkmem : ((2001 : ℤ), "Winter") ∈ (winterExample.map seasonKey).dedup :=
      List.mem_dedup.mpr (by simp [winterExample, seasonKey, seasonName])
    have hfilter : winterExample.filter
          (fun r => seasonKey r = ((2001 : ℤ), "Winter"))
        = [⟨2000, 12, some 10⟩, ⟨2001, 1, some 20⟩, ⟨2001, 2, some 30⟩] := by
      decide
    have hrow : seasonalRow winterExample (2001, "Winter")
        = ⟨2000, "Winter", 60⟩ := by
      simp only [seasonalRow, bucketSum]
      rw [hfilter]
      norm_num [List.filterMap_cons]
    exact hrow ▸ List.mem_map_of_mem (seasonalRow winterExample) hkmem

/-- C8: the moisture index is `(P - PET) / P` elementwise with 0 at every
position whose precipitation is missing or not positive; with no
temperature data, PET is exactly `0.7 * P`, so every position with `P > 0`
yields exactly 3/10. -/
theorem c8_moisture_balance (temperature_data : Option (List ℚ))
    (s : List Val)
    (hlen : ∀ ts, temperature_data = some ts → ts.length = s.length) :
    (∀ i p, s.get? i = some (some p) → p ≤ 0 →
      (calculate_moisture_index temperature_data s).get? i = some (some 0)) ∧
    (∀ i, s.get? i = some none →
      (calculate_moisture_index temperature_data s).get? i = some (some 0)) ∧
    (calculate_potential_evapotranspiration none s
      = s.map (fun p? => p?.map (fun p => p * 0.7))) ∧
    (∀ i p, s.get? i = some (some p) → 0 < p →
      (calculate_moisture_index none s).get? i = some (some (3 / 10))) := by
  have hpetlen : ∀ t : Option (List ℚ), (∀ ts, t = some ts → ts.length = s.length) →
      (calculate_potential_evapotranspiration t s).length = s.length := by
    intro t ht
    match t with
    | none => simp [calculate_potential_evapotranspiration]
    | some ts =>
      simp [calculate_potential_evapotranspiration, ht ts rfl]
  have hget : ∀ (t : Option (List ℚ)), (∀ ts, t = some ts → ts.length = s.length) →
      ∀ i p?, s.get? i = some p? →
      ∃ pet?, (calculate_potential_evapotranspiration t s).get? i = some pet? := by
    intro t ht i p? hp
    have hi : i < s.length := List.get?_eq_some.mp hp |>.1
    have hi' : i < (calculate_potential_evapotranspiration t s).length := by
      rw [hpetlen t ht]; exact hi
    exact ⟨_, List.get?_eq_get hi'⟩
  refine ⟨?_, ?_, rfl, ?_⟩
  · intro i p hp hple
    obtain ⟨pet?, hpet⟩ := hget temperature_data hlen i _ hp
    unfold calculate_moisture_index
    rw [List.get?_zipWith', hp, hpet]
    simp [not_lt.mpr hple]
  · intro i hp
    obtain ⟨pet?, hpet⟩ := hget temperature_data hlen i _ hp
    unfold calculate_moisture_index
    rw [List.get?_zipWith', hp, hpet]
    simp
  · intro i p hp hppos
    have hnone : ∀ ts : List ℚ, (none : Option (List ℚ)) = some ts →
        ts.length = s.length := fun ts h => by cases h
    have hpet : (calculate_potential_evapotranspiration none s).get? i
        = some ((some p).map (fun q => q * 0.7)) := by
      show (s.map (fun p? => p?.map (fun q => q * 0.7))).get? i = _
      rw [List.get?_map, hp]
      rfl
    unfold calculate_moisture_index
    rw [List.get?_zipWith', hp, hpet]
    simp only [Option.map_some', Option.some_bind]
    have hp0 : p ≠ 0 := hppos.ne'
    have hval : (p - p * 0.7) / p = 3 / 10 := by
      field_simp
      ring
    rw [if_pos hppos]
    simp [hval]

/-- C8 witness: the theorem applied with no temperature data to the series
[5, 0, NaN]: position 0 (precipitation 5 > 0) gives exactly 3/10, position
1 (precipitation 0) gives exactly 0, position 2 (missing) gives 0. -/
theorem c8_witness :
    (calculate_moisture_index none [some 5, some 0, none]).get? 1
        = some (some 0) ∧
    (calculate_moisture_index none [some 5, some 0, none]).get? 2
        = some (some 0) ∧
    (calculate_moisture_index none [some 5, some 0, none]).get? 0
        = some (some (3 / 10)) := by
  have H := c8_moisture_balance none [some 5, some 0, none]
    (fun ts h => by cases h)
  exact ⟨H.1 1 0 rfl (by norm_num), H.2.1 2 rfl,
    H.2.2.2 0 5 rfl (by norm_num)⟩

/-- C9: for a year of the series whose 12 monthly records are all present
and non-missing, the annual aggregator's precipitation figure equals the
sum of that year's 12 monthly precipitation values. -/
theorem c9_annual_sum (rs : List MonthRec) (y : ℤ)
    (h12 : (rs.filter (fun r => r.year = y)).length = 12)
    (hdef : ∀ r ∈ rs, r.year = y → r.precip ≠ none) :
    annualPrecip rs y
      = ((rs.filter (fun r => r.year = y)).map
          (fun r => r.precip.getD 0)).sum := by
  unfold annualPrecip
  congr 1
  have hall : ∀ r ∈ rs.filter (fun r => r.year = y), r.precip ≠ none := by
    intro r hr
    rcases List.mem_filter.mp hr with ⟨hmem, hyr⟩
    exact hdef r hmem (by simpa using hyr)
  clear h12 hdef
  revert hall
  generalize rs.filter (fun r => r.year = y) = L
  induction L with
  | nil => intro _; rfl
  | cons a L ih =>
    intro hall
    obtain ⟨v, hv⟩ := Option.ne_none_iff_exists'.mp (hall a (by simp))
    simp only [List.filterMap_cons, List.map_cons, hv, Option.getD_some]
    exact congrArg (v :: ·) (ih (fun r hr => hall r (by simp [hr])))

/-- The 12 fully defined months of year 2000 used to witness C9. -/
def year2000 : List MonthRec :=
  [⟨2000, 1, some 1⟩, ⟨2000, 2, some 2⟩, ⟨2000, 3, some 3⟩,
   ⟨2000, 4, some 4⟩, ⟨2000, 5, some 5⟩, ⟨2000, 6, some 6⟩,
   ⟨2000, 7, some 7⟩, ⟨2000, 8, some 8⟩, ⟨2000, 9, some 9⟩,
   ⟨2000, 10, some 10⟩, ⟨2000, 11, some 11⟩, ⟨2000, 12, some 12⟩]

/-- C9 witness: the theorem applied to a full year 2000 with the 12
non-missing values 1..12. -/
theorem c9_witness :
    (year2000.filter (fun r => r.year = 2000)).length = 12 ∧
    (∀ r ∈ year2000, r.year = 2000 → r.precip ≠ none) ∧
    annualPrecip year2000 2000
      = ((year2000.filter (fun r => r.year = (2000 : ℤ))).map
          (fun r => r.precip.getD 0)).sum :=
  ⟨by decide, by decide, c9_annual_sum year2000 2000 (by decide) (by decide)⟩

/-- The annual-aggregation input for the C10 witness: year 2000 has one
defined and one missing month; year 2001 has only a missing month. -/
def annualExample : List MonthRec :=
  [⟨2000, 1, some 4⟩, ⟨2000, 2, none⟩, ⟨2001, 1, none⟩]

/-- C10: a year that appears in the series produces a result row even when
some (or all) of its monthly values are missing; the row's precipitation
figure is the sum of the year's non-missing monthly values — a plain
rational, never a missing value — and it is 0 when every month of the year
is missing. -/
theorem c10_annual_missing_months (rs : List MonthRec) (y : ℤ)
    (hy : y ∈ rs.map (fun r => r.year)) :
    (y, annualPrecip rs y) ∈ calculate_annual rs ∧
    annualPrecip rs y
      = ((rs.filter (fun r => r.year = y)).filterMap
          (fun r => r.precip)).sum ∧
    ((∀ r ∈ rs, r.year = y → r.precip = none) → annualPrecip rs y = 0) := by
  refine ⟨?_, rfl, ?_⟩
  · unfold calculate_annual
    exact List.mem_map_of_mem _ (List.mem_dedup.mpr hy)
  · intro hall
    unfold annualPrecip
    have hnil : (rs.filter (fun r => r.year = y)).filterMap
        (fun r => r.precip) = [] := by
      rw [List.filterMap_eq_nil_iff]
      intro r hr
      rcases List.mem_filter.mp hr with ⟨hmem, hyr⟩
      exact hall r hmem (by simpa using hyr)
    rw [hnil]
    rfl

/-- C10 witness: the theorem applied to `annualExample` at years 2000
(partially missing) and 2001 (fully missing). -/
theorem c10_witness :
    ((2000 : ℤ) ∈ annualExample.map (fun r => r.year)) ∧
    ((2000 : ℤ), annualPrecip annualExample 2000) ∈
      calculate_annual annualExample ∧
    ((2001 : ℤ), annualPrecip annualExample 2001) ∈
      calculate_annual annualExample ∧
    annualPrecip annualExample 2001 = 0 := by
  have H0 := c10_annual_missing_months annualExample 2000 (by decide)
  have H1 := c10_annual_missing_months annualExample 2001 (by decide)
  exact ⟨by decide, H0.1, H1.1, H1.2.2 (by decide)⟩

end DIC
